import Mathlib

/-!
# Verification of the Order-Execution-Engine core

Shallow embedding of the TypeScript sources:
* `src/types/order.types.ts` — `OrderStatus`, `OrderType`, `DexType`, `DexQuote`,
  `Order`, `OrderStatusUpdate`, and the `WebSocketService` connection registry;
* `src/services/dex-router.service.ts` — `DexRouterService.selectBestDex`,
  `DexRouterService.validateQuotes`, and `OrderExecutionService.executeMarketOrder`;
* `src/services/order.service.ts` — `OrderService.updateOrderStatus` and the
  BullMQ-backed `OrderQueueService.addOrder` / `getOrderPriority`.

Numbers are modelled as rationals, timestamps as naturals.  The effectful
pipeline is modelled as a trace of actions (`persist`, `emit`, `incrRetry`,
`wait`), parametrised by an environment that says which stage (if any) of each
execution attempt raises an error.
-/

set_option autoImplicit false

namespace OrderEngine

/-- `OrderStatus` from `src/types/order.types.ts` (the fourth variant is
spelled `SUBMITTED` in the source, value `'submitted'`). -/
inductive OrderStatus where
  | pending
  | routing
  | building
  | submitted
  | confirmed
  | failed
  deriving DecidableEq, Repr

/-- `DexType` from `src/types/order.types.ts`. -/
inductive DexType where
  | raydium
  | meteora
  deriving DecidableEq, Repr

/-- `DexQuote` from `src/types/order.types.ts`. -/
structure DexQuote where
  dex : DexType
  price : ℚ
  outputAmount : ℚ
  priceImpact : ℚ
  timestamp : ℤ
  deriving DecidableEq, Repr

/-- `DexRouterService.selectBestDex` (`dex-router.service.ts` lines 49-68):
returns `raydiumQuote` exactly when its `outputAmount` is strictly greater,
otherwise `meteoraQuote`. -/
def selectBestDex (raydiumQuote meteoraQuote : DexQuote) : DexQuote :=
  if raydiumQuote.outputAmount > meteoraQuote.outputAmount then raydiumQuote
  else meteoraQuote

/-- Result of `DexRouterService.validateQuotes`: the returned boolean plus
whether the warning-level log was produced. -/
structure ValidateResult where
  result : Bool
  warned : Bool
  deriving DecidableEq, Repr

/-- `DexRouterService.validateQuotes` (`dex-router.service.ts` lines 152-170):
computes `|priceA - priceB| / ((priceA + priceB) / 2) * 100`, warns when that
exceeds 10, and always returns `true`. -/
def validateQuotes (raydiumQuote meteoraQuote : DexQuote) : ValidateResult :=
  let priceDifference := |raydiumQuote.price - meteoraQuote.price|
  let avgPrice := (raydiumQuote.price + meteoraQuote.price) / 2
  let percentageDiff := (priceDifference / avgPrice) * 100
  { result := true
    warned := decide (percentageDiff > 10) }

/-! ## The execution pipeline (`OrderExecutionService.executeMarketOrder`) -/

/-- The three places inside one execution attempt where the source code can
throw: `dexRouter.getQuotes` (venue fetch), the slippage check inside
`buildTransaction`, and `submitTransaction`. -/
inductive Stage where
  | quoteFetch
  | slippage
  | submit
  deriving DecidableEq, Repr

/-- An error raised by some stage, together with its `error.message`. -/
structure StageError where
  stage : Stage
  message : String
  deriving DecidableEq, Repr

/-- One observable effect of the pipeline:
* `persist s r` — `orderService.updateOrderStatus(orderId, s, ...)`
  (`r` is the `failureReason` field of the update, when supplied);
* `emit s e` — `emitStatusUpdate(orderId, s, ...)` (`e` is the `error`
  payload field, when supplied);
* `incrRetry` — `orderService.incrementRetryCount(orderId)`;
* `wait ms` — `delay(ms)`. -/
inductive Action where
  | persist (status : OrderStatus) (failureReason : Option String)
  | emit (status : OrderStatus) (error : Option String)
  | incrRetry
  | wait (ms : ℕ)
  deriving DecidableEq, Repr

/-- The effects of the `try` block of one execution attempt, given which stage
(if any) throws.  Mirrors `executeMarketOrder` lines 205-262:
persist/emit `ROUTING`, fetch quotes, persist/emit `ROUTING` again with the
venue data, persist/emit `BUILDING`, build (slippage check), persist/emit
`SUBMITTED`, submit, persist/emit `CONFIRMED`. -/
def attemptActions : Option StageError → List Action
  | some e =>
    match e.stage with
    | Stage.quoteFetch =>
        [Action.persist OrderStatus.routing none,
         Action.emit OrderStatus.routing none]
    | Stage.slippage =>
        [Action.persist OrderStatus.routing none,
         Action.emit OrderStatus.routing none,
         Action.persist OrderStatus.routing none,
         Action.emit OrderStatus.routing none,
         Action.persist OrderStatus.building none,
         Action.emit OrderStatus.building none]
    | Stage.submit =>
        [Action.persist OrderStatus.routing none,
         Action.emit OrderStatus.routing none,
         Action.persist OrderStatus.routing none,
         Action.emit OrderStatus.routing none,
         Action.persist OrderStatus.building none,
         Action.emit OrderStatus.building none,
         Action.persist OrderStatus.submitted none,
         Action.emit OrderStatus.submitted none]
  | none =>
      [Action.persist OrderStatus.routing none,
       Action.emit OrderStatus.routing none,
       Action.persist OrderStatus.routing none,
       Action.emit OrderStatus.routing none,
       Action.persist OrderStatus.building none,
       Action.emit OrderStatus.building none,
       Action.persist OrderStatus.submitted none,
       Action.emit OrderStatus.submitted none,
       Action.persist OrderStatus.confirmed none,
       Action.emit OrderStatus.confirmed none]

/-- `OrderExecutionService.executeMarketOrder` (`dex-router.service.ts`
lines 201-292) as an action trace.  `env a` says which stage of attempt `a`
throws (`none` = the attempt succeeds).  On an error with
`retryAttempt < maxRetries` the code increments the retry counter, waits
`2 ^ retryAttempt * 1000` ms and recurses on `retryAttempt + 1`; otherwise it
persists `FAILED` with `failureReason = error.message` and emits the terminal
failure event carrying that message. -/
def executeMarketOrder (env : ℕ → Option StageError) (maxRetries : ℕ)
    (retryAttempt : ℕ) : List Action :=
  attemptActions (env retryAttempt) ++
    match env retryAttempt with
    | none => []
    | some e =>
      if retryAttempt < maxRetries then
        Action.incrRetry :: Action.wait (2 ^ retryAttempt * 1000) ::
          executeMarketOrder env maxRetries (retryAttempt + 1)
      else
        [Action.persist OrderStatus.failed (some e.message),
         Action.emit OrderStatus.failed (some e.message)]
  termination_by maxRetries - retryAttempt
  decreasing_by omega

/-- The sequence of statuses persisted by a trace. -/
def persisted (actions : List Action) : List OrderStatus :=
  actions.filterMap fun a =>
    match a with
    | Action.persist s _ => some s
    | _ => none

/-- The sequence of statuses published by a trace. -/
def emitted (actions : List Action) : List OrderStatus :=
  actions.filterMap fun a =>
    match a with
    | Action.emit s _ => some s
    | _ => none

/-- A status is terminal when it is `CONFIRMED` or `FAILED`. -/
def isTerminal (s : OrderStatus) : Bool :=
  s = OrderStatus.confirmed || s = OrderStatus.failed

/-- Statuses persisted by one failed attempt: the failing stage cuts the
attempt short. -/
def failBlock : Stage → List OrderStatus
  | Stage.quoteFetch => [OrderStatus.routing]
  | Stage.slippage =>
      [OrderStatus.routing, OrderStatus.routing, OrderStatus.building]
  | Stage.submit =>
      [OrderStatus.routing, OrderStatus.routing, OrderStatus.building,
       OrderStatus.submitted]

/-- Statuses persisted by one successful attempt. -/
def successBlock : List OrderStatus :=
  [OrderStatus.routing, OrderStatus.routing, OrderStatus.building,
   OrderStatus.submitted, OrderStatus.confirmed]

/-- Every `persist` in the trace is immediately followed by an `emit` of the
same status. -/
def persistThenEmit : List Action → Bool
  | [] => true
  | Action.persist s _ :: rest =>
    match rest with
    | Action.emit s2 _ :: _ => decide (s = s2) && persistThenEmit rest
    | _ => false
  | Action.emit _ _ :: rest => persistThenEmit rest
  | Action.incrRetry :: rest => persistThenEmit rest
  | Action.wait _ :: rest => persistThenEmit rest

/-! ## The Status Broadcaster (`WebSocketService`, `src/types/order.types.ts`
part 2 / `websocket.service.ts`) -/

/-- A WebSocket connection handle: its identity, its `readyState`
(`1` = OPEN), and whether `send` throws on it. -/
structure Socket where
  sid : ℕ
  readyState : ℕ
  sendFails : Bool
  deriving DecidableEq, Repr

/-- The `connections : Map<string, Set<SocketStream>>` registry, as an
association list from order id to the subscriber list. -/
abbrev ConnMap := List (String × List Socket)

/-- `Map.get`: the first binding for the key, if any. -/
def lookupConns : ConnMap → String → Option (List Socket)
  | [], _ => none
  | kv :: rest, oid => if kv.1 = oid then some kv.2 else lookupConns rest oid

/-- `Map.set`: replace the binding for the key, or append a new one. -/
def setConns : ConnMap → String → List Socket → ConnMap
  | [], oid, conns => [(oid, conns)]
  | kv :: rest, oid, conns =>
    if kv.1 = oid then (oid, conns) :: rest else kv :: setConns rest oid conns

/-- `Map.delete`: drop the binding for the key. -/
def delConns (m : ConnMap) (oid : String) : ConnMap :=
  m.filter fun kv => kv.1 ≠ oid

/-- `WebSocketService.registerConnection`: ensure a subscriber set exists for
the order and add the socket to it (`Set.add` is a no-op on a member). -/
def registerConnection (m : ConnMap) (orderId : String) (socket : Socket) :
    ConnMap :=
  let conns := (lookupConns m orderId).getD []
  setConns m orderId (if socket ∈ conns then conns else conns ++ [socket])

/-- `WebSocketService.unregisterConnection`: remove the socket from the
order's subscriber set and delete the entry when the set becomes empty. -/
def unregisterConnection (m : ConnMap) (orderId : String) (socket : Socket) :
    ConnMap :=
  match lookupConns m orderId with
  | none => m
  | some conns =>
    let conns2 := conns.erase socket
    if conns2.isEmpty then delConns m orderId else setConns m orderId conns2

/-- `OrderStatusUpdate` from `src/types/order.types.ts` (the `data` payload is
irrelevant to broadcasting and omitted). -/
structure OrderStatusUpdate where
  orderId : String
  status : OrderStatus
  message : String
  timestamp : ℤ
  deriving DecidableEq, Repr

/-- Result of one `broadcastStatusUpdate` call: the registry afterwards, the
`sid`s the message was actually sent to, and the scheduled forced-closure
(order id and delay in ms), if any. -/
structure BroadcastResult where
  connMap : ConnMap
  delivered : List ℕ
  scheduledClose : Option (String × ℕ)
  deriving DecidableEq, Repr

/-- The per-socket body of the `connections.forEach` loop in
`broadcastStatusUpdate`: send when `readyState === 1`; when the send throws,
catch and `unregisterConnection`. -/
def broadcastStep (orderId : String) (acc : ConnMap × List ℕ) (socket : Socket) :
    ConnMap × List ℕ :=
  if socket.readyState = 1 then
    if socket.sendFails then (unregisterConnection acc.1 orderId socket, acc.2)
    else (acc.1, acc.2 ++ [socket.sid])
  else acc

/-- `WebSocketService.broadcastStatusUpdate`: early return when the order has
no (or an empty) subscriber set; otherwise iterate over the subscribers, and
when the status is terminal schedule `closeOrderConnections` after 5000 ms. -/
def broadcastStatusUpdate (m : ConnMap) (update : OrderStatusUpdate) :
    BroadcastResult :=
  match lookupConns m update.orderId with
  | none => { connMap := m, delivered := [], scheduledClose := none }
  | some conns =>
    if conns.isEmpty then { connMap := m, delivered := [], scheduledClose := none }
    else
      let r := conns.foldl (broadcastStep update.orderId) (m, [])
      { connMap := r.1
        delivered := r.2
        scheduledClose :=
          if update.status = OrderStatus.confirmed ∨
              update.status = OrderStatus.failed
          then some (update.orderId, 5000) else none }

/-- `WebSocketService.closeOrderConnections`: close every socket of the order
(returned in the second component) and delete the entry. -/
def closeOrderConnections (m : ConnMap) (orderId : String) :
    ConnMap × List Socket :=
  match lookupConns m orderId with
  | none => (m, [])
  | some conns => (delConns m orderId, conns)

/-- `WebSocketService.getOrderConnections`: `connections.get(orderId)?.size || 0`. -/
def getOrderConnections (m : ConnMap) (orderId : String) : ℕ :=
  match lookupConns m orderId with
  | none => 0
  | some conns => conns.length

/-- A socket on which the delivery attempt throws (open and failing). -/
def deliveryThrows (s : Socket) : Bool :=
  decide (s.readyState = 1) && s.sendFails

/-- A socket to which the message is actually delivered. -/
def deliveryOk (s : Socket) : Bool :=
  decide (s.readyState = 1) && !s.sendFails

/-- The socket is a member of the order's subscriber set. -/
def memConn (m : ConnMap) (orderId : String) (s : Socket) : Prop :=
  ∃ conns, lookupConns m orderId = some conns ∧ s ∈ conns

/-- The map component of one `forEach` step of `broadcastStatusUpdate`. -/
def remStep (orderId : String) (m : ConnMap) (s : Socket) : ConnMap :=
  if deliveryThrows s then unregisterConnection m orderId s else m

/-! ## The order store (`OrderService.updateOrderStatus`,
`src/services/order.service.ts` lines 42-81) -/

/-- `Order` from `src/types/order.types.ts`.  `type` is the database-level
enum string (`"MARKET"`, `"LIMIT"`, `"SNIPER"`); timestamps are naturals. -/
structure Order where
  id : String
  type : String
  status : OrderStatus
  fromToken : String
  toToken : String
  amount : ℚ
  selectedDex : Option String
  raydiumPrice : Option ℚ
  meteoraPrice : Option ℚ
  executionPrice : Option ℚ
  txHash : Option String
  slippageTolerance : ℚ
  retryCount : ℕ
  failureReason : Option String
  createdAt : ℕ
  updatedAt : ℕ
  completedAt : Option ℕ
  deriving DecidableEq, Repr

/-- The optional `data` argument of `updateOrderStatus`. -/
structure UpdateData where
  selectedDex : Option String := none
  raydiumPrice : Option ℚ := none
  meteoraPrice : Option ℚ := none
  executionPrice : Option ℚ := none
  txHash : Option String := none
  failureReason : Option String := none
  deriving DecidableEq, Repr

/-- JavaScript truthiness for an optional number: `undefined`, `0` are falsy. -/
def truthyNum : Option ℚ → Bool
  | some p => decide (p ≠ 0)
  | none => false

/-- JavaScript truthiness for an optional string: `undefined`, `""` are falsy. -/
def truthyStr : Option String → Bool
  | some s => decide (s ≠ "")
  | none => false

/-- The `updateData` object assembled by `updateOrderStatus` before the
`prisma.order.update` call: `none` means "field not part of the update". -/
structure PrismaUpdate where
  status : OrderStatus
  updatedAt : ℕ
  completedAt : Option ℕ
  selectedDex : Option String
  raydiumPrice : Option ℚ
  meteoraPrice : Option ℚ
  executionPrice : Option ℚ
  txHash : Option String
  failureReason : Option String
  deriving DecidableEq, Repr

/-- Lines 54-70 of `order.service.ts`: `status` and `updatedAt` always;
`completedAt` on a terminal status; each `data` field only when it is
JavaScript-truthy (`if (data.x) ...`), so a supplied `0` (for numbers) or
`""` (for strings) is silently dropped. -/
def buildUpdateData (status : OrderStatus) (data : UpdateData) (now : ℕ) :
    PrismaUpdate :=
  { status := status
    updatedAt := now
    completedAt :=
      if status = OrderStatus.confirmed ∨ status = OrderStatus.failed then
        some now
      else none
    selectedDex := if truthyStr data.selectedDex then data.selectedDex else none
    raydiumPrice := if truthyNum data.raydiumPrice then data.raydiumPrice else none
    meteoraPrice := if truthyNum data.meteoraPrice then data.meteoraPrice else none
    executionPrice :=
      if truthyNum data.executionPrice then data.executionPrice else none
    txHash := if truthyStr data.txHash then data.txHash else none
    failureReason := if truthyStr data.failureReason then data.failureReason else none }

/-- A field present in the update overrides the stored one; an absent field
leaves it unchanged (`prisma.order.update` merge semantics). -/
def mergeOpt {α : Type} (new old : Option α) : Option α :=
  match new with
  | some v => some v
  | none => old

/-- `prisma.order.update({where, data: updateData})`: overwrite exactly the
fields present in the update. -/
def applyUpdate (order : Order) (u : PrismaUpdate) : Order :=
  { order with
    status := u.status
    updatedAt := u.updatedAt
    completedAt := mergeOpt u.completedAt order.completedAt
    selectedDex := mergeOpt u.selectedDex order.selectedDex
    raydiumPrice := mergeOpt u.raydiumPrice order.raydiumPrice
    meteoraPrice := mergeOpt u.meteoraPrice order.meteoraPrice
    executionPrice := mergeOpt u.executionPrice order.executionPrice
    txHash := mergeOpt u.txHash order.txHash
    failureReason := mergeOpt u.failureReason order.failureReason }

/-- `OrderService.updateOrderStatus` (`order.service.ts` lines 42-81). -/
def updateOrderStatus (order : Order) (status : OrderStatus) (data : UpdateData)
    (now : ℕ) : Order :=
  applyUpdate order (buildUpdateData status data now)

/-! ## The Admission Controller (`OrderQueueService`,
`src/services/order.service.ts` part 3 / `order-queue.service.ts`) -/

/-- A queued BullMQ job: its `jobId` and `priority`. -/
structure Job where
  jobId : String
  priority : ℕ
  deriving DecidableEq, Repr

/-- Modelled from the spec: the BullMQ `Queue.add` collaborator is not part of
this repository; per the spec ("enqueues an order for execution exactly once,
keyed by the order's own identifier so duplicate admission is a no-op") and
BullMQ's documented `jobId` semantics, adding a job whose `jobId` is already
present is a no-op. -/
def queueAdd (q : List Job) (j : Job) : List Job :=
  if q.any fun j2 => j2.jobId = j.jobId then q else q ++ [j]

/-- `OrderQueueService.getOrderPriority` (`order-queue.service.ts`
lines 472-486): market orders rank highest. -/
def getOrderPriority (order : Order) : ℕ :=
  match order.type with
  | "MARKET" => 1
  | "LIMIT" => 2
  | "SNIPER" => 3
  | _ => 5

/-- `OrderQueueService.addOrder` (`order-queue.service.ts` lines 438-449):
enqueue with `jobId := order.id` and the computed priority. -/
def addOrder (q : List Job) (order : Order) : List Job :=
  queueAdd q { jobId := order.id, priority := getOrderPriority order }

/-! ## Concrete inputs used by witnesses and counterexamples -/

/-- An environment in which every attempt's submission fails, with the
message thrown by `submitTransaction`. -/
def envSubmitFail : ℕ → Option StageError :=
  fun _ =>
    some { stage := Stage.submit
           message := "Network error: Transaction failed to submit" }

/-- A concrete market order (the scenario of spec §8). -/
def marketOrder : Order :=
  { id := "order-1"
    type := "MARKET"
    status := OrderStatus.pending
    fromToken := "SOL"
    toToken := "USDC"
    amount := 10
    selectedDex := none
    raydiumPrice := none
    meteoraPrice := none
    executionPrice := none
    txHash := none
    slippageTolerance := 1 / 100
    retryCount := 0
    failureReason := none
    createdAt := 0
    updatedAt := 0
    completedAt := none }

/-- An open socket that delivers successfully. -/
def sock1 : Socket := { sid := 1, readyState := 1, sendFails := false }

/-- A second open socket that delivers successfully. -/
def sock2 : Socket := { sid := 2, readyState := 1, sendFails := false }

/-- An open socket whose `send` throws. -/
def sockBad : Socket := { sid := 3, readyState := 1, sendFails := true }

/-- Two healthy subscribers of order `"order-1"`. -/
def twoSubscribers : ConnMap := registerConnection
  (registerConnection [] "order-1" sock1) "order-1" sock2

/-- A healthy subscriber and a failing subscriber of order `"order-1"`. -/
def oneBadSubscriber : ConnMap := registerConnection
  (registerConnection [] "order-1" sock1) "order-1" sockBad

/-- A non-terminal status update for order `"order-1"`. -/
def routingUpdate : OrderStatusUpdate :=
  { orderId := "order-1"
    status := OrderStatus.routing
    message := "Comparing DEX prices"
    timestamp := 0 }

/-- A terminal status update for order `"order-1"`. -/
def confirmedUpdate : OrderStatusUpdate :=
  { orderId := "order-1"
    status := OrderStatus.confirmed
    message := "Transaction successful"
    timestamp := 0 }

/-! ## Supporting lemmas about the pipeline trace -/

theorem persisted_append (xs ys : List Action) :
    persisted (xs ++ ys) = persisted xs ++ persisted ys :=
  List.filterMap_append xs ys _

theorem emitted_append (xs ys : List Action) :
    emitted (xs ++ ys) = emitted xs ++ emitted ys :=
  List.filterMap_append xs ys _

theorem persisted_attempt_none : persisted (attemptActions none) = successBlock :=
  rfl

theorem persisted_attempt_some (e : StageError) :
    persisted (attemptActions (some e)) = failBlock e.stage := by
  obtain ⟨st, msg⟩ := e
  cases st <;> rfl

theorem emitted_attempt_none : emitted (attemptActions none) = successBlock :=
  rfl

theorem emitted_attempt_some (e : StageError) :
    emitted (attemptActions (some e)) = failBlock e.stage := by
  obtain ⟨st, msg⟩ := e
  cases st <;> rfl

theorem persisted_retry_cons (n : ℕ) (xs : List Action) :
    persisted (Action.incrRetry :: Action.wait n :: xs) = persisted xs :=
  rfl

theorem emitted_retry_cons (n : ℕ) (xs : List Action) :
    emitted (Action.incrRetry :: Action.wait n :: xs) = emitted xs :=
  rfl

theorem persisted_failPair (msg : String) :
    persisted [Action.persist OrderStatus.failed (some msg),
               Action.emit OrderStatus.failed (some msg)] =
      [OrderStatus.failed] :=
  rfl

theorem emitted_failPair (msg : String) :
    emitted [Action.persist OrderStatus.failed (some msg),
             Action.emit OrderStatus.failed (some msg)] =
      [OrderStatus.failed] :=
  rfl

theorem exec_unfold (env : ℕ → Option StageError) (m a : ℕ) :
    executeMarketOrder env m a =
      attemptActions (env a) ++
        match env a with
        | none => []
        | some e =>
          if a < m then
            Action.incrRetry :: Action.wait (2 ^ a * 1000) ::
              executeMarketOrder env m (a + 1)
          else
            [Action.persist OrderStatus.failed (some e.message),
             Action.emit OrderStatus.failed (some e.message)] := by
  rw [executeMarketOrder]

/-- Trace of a fully successful attempt. -/
theorem exec_success_case (env : ℕ → Option StageError) (m a : ℕ)
    (h : env a = none) :
    executeMarketOrder env m a = attemptActions none := by
  rw [exec_unfold, h]
  simp

/-- Trace of an attempt that fails with the retry budget left. -/
theorem exec_retry_case (env : ℕ → Option StageError) (m a : ℕ) (e : StageError)
    (h : env a = some e) (ham : a < m) :
    executeMarketOrder env m a =
      attemptActions (some e) ++
        Action.incrRetry :: Action.wait (2 ^ a * 1000) ::
          executeMarketOrder env m (a + 1) := by
  rw [exec_unfold, h]
  simp [ham]

/-- Trace of an attempt that fails with the retry budget exhausted. -/
theorem exec_failed_case (env : ℕ → Option StageError) (m a : ℕ) (e : StageError)
    (h : env a = some e) (hnm : ¬ a < m) :
    executeMarketOrder env m a =
      attemptActions (some e) ++
        [Action.persist OrderStatus.failed (some e.message),
         Action.emit OrderStatus.failed (some e.message)] := by
  rw [exec_unfold, h]
  simp [hnm]

theorem exec_shape_aux (k : ℕ) :
    ∀ (env : ℕ → Option StageError) (m a : ℕ), m - a ≤ k →
      ∃ fails : List StageError,
        persisted (executeMarketOrder env m a) =
            (fails.map fun e => failBlock e.stage).flatten ++ successBlock ∨
        ∃ e : StageError,
          persisted (executeMarketOrder env m a) =
            (fails.map fun e2 => failBlock e2.stage).flatten ++
              failBlock e.stage ++ [OrderStatus.failed] := by
  induction k with
  | zero =>
    intro env m a hk
    cases h : env a with
    | none =>
      refine ⟨[], Or.inl ?_⟩
      rw [exec_success_case env m a h, persisted_attempt_none]
      simp
    | some e =>
      have hnm : ¬ a < m := by omega
      refine ⟨[], Or.inr ⟨e, ?_⟩⟩
      rw [exec_failed_case env m a e h hnm, persisted_append,
        persisted_attempt_some, persisted_failPair]
      simp
  | succ k ih =>
    intro env m a hk
    cases h : env a with
    | none =>
      refine ⟨[], Or.inl ?_⟩
      rw [exec_success_case env m a h, persisted_attempt_none]
      simp
    | some e =>
      by_cases ham : a < m
      · obtain ⟨fails, hc⟩ := ih env m (a + 1) (by omega)
        refine ⟨e :: fails, ?_⟩
        rw [exec_retry_case env m a e h ham, persisted_append,
          persisted_attempt_some, persisted_retry_cons]
        cases hc with
        | inl hc =>
          refine Or.inl ?_
          rw [hc]
          simp
        | inr hc =>
          obtain ⟨e2, hc⟩ := hc
          refine Or.inr ⟨e2, ?_⟩
          rw [hc]
          simp
      · refine ⟨[], Or.inr ⟨e, ?_⟩⟩
        rw [exec_failed_case env m a e h ham, persisted_append,
          persisted_attempt_some, persisted_failPair]
        simp

theorem failBlock_count_confirmed (st : Stage) :
    (failBlock st).count OrderStatus.confirmed = 0 := by
  cases st <;> rfl

theorem failBlock_count_failed (st : Stage) :
    (failBlock st).count OrderStatus.failed = 0 := by
  cases st <;> rfl

theorem exec_count_aux (k : ℕ) :
    ∀ (env : ℕ → Option StageError) (m a : ℕ), m - a ≤ k →
      (persisted (executeMarketOrder env m a)).count OrderStatus.confirmed +
        (persisted (executeMarketOrder env m a)).count OrderStatus.failed = 1 := by
  induction k with
  | zero =>
    intro env m a hk
    cases h : env a with
    | none =>
      rw [exec_success_case env m a h, persisted_attempt_none]
      decide
    | some e =>
      have hnm : ¬ a < m := by omega
      rw [exec_failed_case env m a e h hnm, persisted_append,
        persisted_attempt_some, persisted_failPair, List.count_append,
        List.count_append, failBlock_count_confirmed, failBlock_count_failed]
      decide
  | succ k ih =>
    intro env m a hk
    cases h : env a with
    | none =>
      rw [exec_success_case env m a h, persisted_attempt_none]
      decide
    | some e =>
      by_cases ham : a < m
      · rw [exec_retry_case env m a e h ham, persisted_append,
          persisted_attempt_some, persisted_retry_cons, List.count_append,
          List.count_append, failBlock_count_confirmed, failBlock_count_failed]
        have := ih env m (a + 1) (by omega)
        omega
      · rw [exec_failed_case env m a e h ham, persisted_append,
          persisted_attempt_some, persisted_failPair, List.count_append,
          List.count_append, failBlock_count_confirmed, failBlock_count_failed]
        decide

theorem exec_terminal_suffix_aux (k : ℕ) :
    ∀ (env : ℕ → Option StageError) (m a : ℕ), m - a ≤ k →
      ([Action.persist OrderStatus.confirmed none,
        Action.emit OrderStatus.confirmed none] <:+
          executeMarketOrder env m a) ∨
      ∃ msg : String,
        [Action.persist OrderStatus.failed (some msg),
         Action.emit OrderStatus.failed (some msg)] <:+
          executeMarketOrder env m a := by
  induction k with
  | zero =>
    intro env m a hk
    cases h : env a with
    | none =>
      refine Or.inl ?_
      rw [exec_success_case env m a h]
      decide
    | some e =>
      have hnm : ¬ a < m := by omega
      refine Or.inr ⟨e.message, ?_⟩
      rw [exec_failed_case env m a e h hnm]
      exact List.suffix_append _ _
  | succ k ih =>
    intro env m a hk
    cases h : env a with
    | none =>
      refine Or.inl ?_
      rw [exec_success_case env m a h]
      decide
    | some e =>
      by_cases ham : a < m
      · have hrec := ih env m (a + 1) (by omega)
        rw [exec_retry_case env m a e h ham]
        have hsuf :
            executeMarketOrder env m (a + 1) <:+
              attemptActions (some e) ++
                Action.incrRetry :: Action.wait (2 ^ a * 1000) ::
                  executeMarketOrder env m (a + 1) :=
          ((List.suffix_cons _ _).trans (List.suffix_cons _ _)).trans
            (List.suffix_append _ _)
        cases hrec with
        | inl hrec => exact Or.inl (hrec.trans hsuf)
        | inr hrec =>
          obtain ⟨msg, hrec⟩ := hrec
          exact Or.inr ⟨msg, hrec.trans hsuf⟩
      · refine Or.inr ⟨e.message, ?_⟩
        rw [exec_failed_case env m a e h ham]
        exact List.suffix_append _ _

theorem exec_pte_aux (k : ℕ) :
    ∀ (env : ℕ → Option StageError) (m a : ℕ), m - a ≤ k →
      persistThenEmit (executeMarketOrder env m a) = true := by
  induction k with
  | zero =>
    intro env m a hk
    cases h : env a with
    | none =>
      rw [exec_success_case env m a h]
      decide
    | some e =>
      have hnm : ¬ a < m := by omega
      rw [exec_failed_case env m a e h hnm]
      obtain ⟨st, msg⟩ := e
      cases st <;> simp [attemptActions, persistThenEmit]
  | succ k ih =>
    intro env m a hk
    cases h : env a with
    | none =>
      rw [exec_success_case env m a h]
      decide
    | some e =>
      by_cases ham : a < m
      · rw [exec_retry_case env m a e h ham]
        have hrec := ih env m (a + 1) (by omega)
        obtain ⟨st, msg⟩ := e
        cases st <;> simpa [attemptActions, persistThenEmit] using hrec
      · rw [exec_failed_case env m a e h ham]
        obtain ⟨st, msg⟩ := e
        cases st <;> simp [attemptActions, persistThenEmit]

theorem exec_emitted_aux (k : ℕ) :
    ∀ (env : ℕ → Option StageError) (m a : ℕ), m - a ≤ k →
      emitted (executeMarketOrder env m a) =
        persisted (executeMarketOrder env m a) := by
  induction k with
  | zero =>
    intro env m a hk
    cases h : env a with
    | none =>
      rw [exec_success_case env m a h, persisted_attempt_none,
        emitted_attempt_none]
    | some e =>
      have hnm : ¬ a < m := by omega
      rw [exec_failed_case env m a e h hnm, persisted_append, emitted_append,
        persisted_attempt_some, emitted_attempt_some, persisted_failPair,
        emitted_failPair]
  | succ k ih =>
    intro env m a hk
    cases h : env a with
    | none =>
      rw [exec_success_case env m a h, persisted_attempt_none,
        emitted_attempt_none]
    | some e =>
      by_cases ham : a < m
      · rw [exec_retry_case env m a e h ham, persisted_append, emitted_append,
          persisted_attempt_some, emitted_attempt_some, persisted_retry_cons,
          emitted_retry_cons, ih env m (a + 1) (by omega)]
      · rw [exec_failed_case env m a e h ham, persisted_append, emitted_append,
          persisted_attempt_some, emitted_attempt_some, persisted_failPair,
          emitted_failPair]

theorem exec_head (env : ℕ → Option StageError) (m a : ℕ) :
    (executeMarketOrder env m a).head? =
      some (Action.persist OrderStatus.routing none) := by
  rw [exec_unfold]
  cases h : env a with
  | none => simp [attemptActions]
  | some e =>
    obtain ⟨st, msg⟩ := e
    cases st <;> simp [attemptActions]

/-! ## Supporting lemmas about the Status Broadcaster -/

theorem lookup_setConns_self (m : ConnMap) (oid : String)
    (conns : List Socket) :
    lookupConns (setConns m oid conns) oid = some conns := by
  induction m with
  | nil => simp [setConns, lookupConns]
  | cons kv rest ih =>
    by_cases h : kv.1 = oid
    · simp [setConns, h, lookupConns]
    · simp [setConns, h, lookupConns, ih]

theorem lookup_setConns_other (m : ConnMap) (oid oid2 : String)
    (conns : List Socket) (h : oid ≠ oid2) :
    lookupConns (setConns m oid conns) oid2 = lookupConns m oid2 := by
  induction m with
  | nil => simp [setConns, lookupConns, h]
  | cons kv rest ih =>
    by_cases h2 : kv.1 = oid
    · simp [setConns, h2, lookupConns, h]
    · simp [setConns, h2, lookupConns, ih]

theorem lookup_delConns_self (m : ConnMap) (oid : String) :
    lookupConns (delConns m oid) oid = none := by
  induction m with
  | nil => simp [delConns, lookupConns]
  | cons kv rest ih =>
    by_cases h : kv.1 = oid
    · simpa [delConns, List.filter_cons, h] using ih
    · simpa [delConns, List.filter_cons, h, lookupConns] using ih

theorem unregister_lookup_none (m : ConnMap) (oid : String) (s : Socket)
    (h : lookupConns m oid = none) :
    lookupConns (unregisterConnection m oid s) oid = none := by
  unfold unregisterConnection
  rw [h]
  exact h

theorem unregister_lookup_some (m : ConnMap) (oid : String) (s : Socket)
    (conns : List Socket) (h : lookupConns m oid = some conns) :
    lookupConns (unregisterConnection m oid s) oid =
      if (conns.erase s).isEmpty then none else some (conns.erase s) := by
  unfold unregisterConnection
  rw [h]
  by_cases he : (conns.erase s).isEmpty
  · simp [he, lookup_delConns_self]
  · simp [he, lookup_setConns_self]

theorem memConn_unregister_sub (m : ConnMap) (oid : String) (s x : Socket)
    (h : memConn (unregisterConnection m oid s) oid x) : memConn m oid x := by
  obtain ⟨c2, hc2, hx⟩ := h
  cases hl : lookupConns m oid with
  | none =>
    rw [unregister_lookup_none m oid s hl] at hc2
    exact absurd hc2 (by simp)
  | some conns =>
    rw [unregister_lookup_some m oid s conns hl] at hc2
    by_cases he : (conns.erase s).isEmpty
    · rw [if_pos he] at hc2
      exact absurd hc2 (by simp)
    · rw [if_neg he] at hc2
      injection hc2 with h2
      subst h2
      exact ⟨conns, hl, List.mem_of_mem_erase hx⟩

theorem memConn_unregister_self (m : ConnMap) (oid : String) (s : Socket)
    (hnd : ∀ conns, lookupConns m oid = some conns → conns.Nodup) :
    ¬ memConn (unregisterConnection m oid s) oid s := by
  intro h
  obtain ⟨c2, hc2, hx⟩ := h
  cases hl : lookupConns m oid with
  | none =>
    rw [unregister_lookup_none m oid s hl] at hc2
    exact absurd hc2 (by simp)
  | some conns =>
    rw [unregister_lookup_some m oid s conns hl] at hc2
    by_cases he : (conns.erase s).isEmpty
    · rw [if_pos he] at hc2
      exact absurd hc2 (by simp)
    · rw [if_neg he] at hc2
      injection hc2 with h2
      subst h2
      exact (((hnd conns hl).mem_erase_iff).mp hx).1 rfl

theorem nodupAt_unregister (m : ConnMap) (oid : String) (s : Socket)
    (hnd : ∀ conns, lookupConns m oid = some conns → conns.Nodup) :
    ∀ conns, lookupConns (unregisterConnection m oid s) oid = some conns →
      conns.Nodup := by
  intro c2 hc2
  cases hl : lookupConns m oid with
  | none =>
    rw [unregister_lookup_none m oid s hl] at hc2
    exact absurd hc2 (by simp)
  | some conns =>
    rw [unregister_lookup_some m oid s conns hl] at hc2
    by_cases he : (conns.erase s).isEmpty
    · rw [if_pos he] at hc2
      exact absurd hc2 (by simp)
    · rw [if_neg he] at hc2
      injection hc2 with h2
      subst h2
      exact (hnd conns hl).erase s

theorem memConn_remStep_sub (oid : String) (t x : Socket) (m : ConnMap)
    (h : memConn (remStep oid m t) oid x) : memConn m oid x := by
  unfold remStep at h
  by_cases hd : deliveryThrows t
  · rw [if_pos hd] at h
    exact memConn_unregister_sub m oid t x h
  · rwa [if_neg hd] at h

theorem nodupAt_remStep (oid : String) (t : Socket) (m : ConnMap)
    (hnd : ∀ conns, lookupConns m oid = some conns → conns.Nodup) :
    ∀ conns, lookupConns (remStep oid m t) oid = some conns → conns.Nodup := by
  unfold remStep
  by_cases hd : deliveryThrows t
  · rw [if_pos hd]
    exact nodupAt_unregister m oid t hnd
  · rw [if_neg hd]
    exact hnd

theorem not_memConn_fold (oid : String) (x : Socket) (todo : List Socket) :
    ∀ m : ConnMap, ¬ memConn m oid x →
      ¬ memConn (todo.foldl (remStep oid) m) oid x := by
  induction todo with
  | nil =>
    intro m h
    simpa using h
  | cons t rest ih =>
    intro m h
    rw [List.foldl_cons]
    exact ih (remStep oid m t) fun hc => h (memConn_remStep_sub oid t x m hc)

theorem fold_removes (oid : String) (s : Socket) (todo : List Socket) :
    ∀ m : ConnMap,
      (∀ conns, lookupConns m oid = some conns → conns.Nodup) →
      s ∈ todo → deliveryThrows s = true →
      ¬ memConn (todo.foldl (remStep oid) m) oid s := by
  induction todo with
  | nil =>
    intro m _ hs _
    cases hs
  | cons t rest ih =>
    intro m hnd hs hthrows
    rw [List.foldl_cons]
    rcases List.mem_cons.mp hs with rfl | hs2
    · refine not_memConn_fold oid s rest (remStep oid m s) ?_
      unfold remStep
      rw [if_pos hthrows]
      exact memConn_unregister_self m oid s hnd
    · exact ih (remStep oid m t) (nodupAt_remStep oid t m hnd) hs2 hthrows

theorem foldl_broadcastStep (oid : String) (conns : List Socket) :
    ∀ (m : ConnMap) (d : List ℕ),
      conns.foldl (broadcastStep oid) (m, d) =
        (conns.foldl (remStep oid) m,
         d ++ (conns.filter deliveryOk).map Socket.sid) := by
  induction conns with
  | nil =>
    intro m d
    simp
  | cons s rest ih =>
    intro m d
    rw [List.foldl_cons, List.foldl_cons]
    by_cases h1 : s.readyState = 1
    · by_cases h2 : s.sendFails
      · have hb : broadcastStep oid (m, d) s = (unregisterConnection m oid s, d) := by
          simp [broadcastStep, h1, h2]
        have hr : remStep oid m s = unregisterConnection m oid s := by
          simp [remStep, deliveryThrows, h1, h2]
        have hf : deliveryOk s = false := by
          simp [deliveryOk, h1, h2]
        rw [hb, hr, ih, List.filter_cons, hf]
        simp
      · have hb : broadcastStep oid (m, d) s = (m, d ++ [s.sid]) := by
          simp [broadcastStep, h1, h2]
        have hr : remStep oid m s = m := by
          simp [remStep, deliveryThrows, h1, h2]
        have hf : deliveryOk s = true := by
          simp [deliveryOk, h1, h2]
        rw [hb, hr, ih, List.filter_cons, hf]
        simp
    · have hb : broadcastStep oid (m, d) s = (m, d) := by
        simp [broadcastStep, h1]
      have hr : remStep oid m s = m := by
        simp [remStep, deliveryThrows, h1]
      have hf : deliveryOk s = false := by
        simp [deliveryOk, h1]
      rw [hb, hr, ih, List.filter_cons, hf]
      simp

/-! ## Claim theorems: the execution pipeline -/

/-- **C1 (counterexample).** The claim says no status repeats except
`ROUTING` during retries.  On a run with no failure at all — hence no retry
(`incrRetry` never happens) — the pipeline still persists `ROUTING` twice
(once on entry, once together with the venue data), so the persisted
sequence is not duplicate-free. -/
theorem C1_counterexample :
    persisted (executeMarketOrder (fun _ => none) 3 0) =
      [OrderStatus.routing, OrderStatus.routing, OrderStatus.building,
       OrderStatus.submitted, OrderStatus.confirmed] ∧
    (executeMarketOrder (fun _ => none) 3 0).count Action.incrRetry = 0 ∧
    ¬ (persisted (executeMarketOrder (fun _ => none) 3 0)).Nodup := by
  have h : executeMarketOrder (fun _ => none) 3 0 = attemptActions none :=
    exec_success_case _ 3 0 rfl
  rw [h]
  decide

/-- **C1 (amended).** For every order (any failure environment `env` and
retry limit), the sequence of statuses persisted by the execution pipeline is
a concatenation of per-attempt blocks: each failed attempt contributes the
block cut short at its failing stage (`ROUTING` alone; or `ROUTING, ROUTING,
BUILDING`; or `ROUTING, ROUTING, BUILDING, SUBMITTED` — `ROUTING` is
persisted twice per attempt, on entry and again with the venue data), a
successful final attempt contributes `ROUTING, ROUTING, BUILDING, SUBMITTED,
CONFIRMED`, and after the last failed attempt a single `FAILED` follows; in
particular exactly one terminal status (`CONFIRMED` or `FAILED`) is ever
recorded. -/
theorem C1_status_sequence (env : ℕ → Option StageError) (maxRetries : ℕ) :
    (∃ fails : List StageError,
      persisted (executeMarketOrder env maxRetries 0) =
          (fails.map fun e => failBlock e.stage).flatten ++ successBlock ∨
      ∃ e : StageError,
        persisted (executeMarketOrder env maxRetries 0) =
          (fails.map fun e2 => failBlock e2.stage).flatten ++
            failBlock e.stage ++ [OrderStatus.failed]) ∧
    (persisted (executeMarketOrder env maxRetries 0)).count
        OrderStatus.confirmed +
      (persisted (executeMarketOrder env maxRetries 0)).count
        OrderStatus.failed = 1 :=
  ⟨exec_shape_aux maxRetries env maxRetries 0 (by omega),
   exec_count_aux maxRetries env maxRetries 0 (by omega)⟩

/-- **C3.** When attempt `a` of an order raises an error `e` at any stage:
if the attempt counter is below `maxRetries`, the pipeline increments the
retry counter, waits `2 ^ a * 1000` ms (1s, 2s, 4s, …) and restarts from
`ROUTING` (the continuation's first action persists `ROUTING`) for the same
order; if the counter has reached the maximum, it persists `FAILED` with
`failureReason = e.message` and publishes a terminal failure event carrying
that message.  The handling is uniform in the stage: the statement holds for
every `e`, and the error branch never inspects `e.stage`. -/
theorem C3_retry_policy (env : ℕ → Option StageError) (maxRetries a : ℕ)
    (e : StageError) (h : env a = some e) :
    (a < maxRetries →
      executeMarketOrder env maxRetries a =
        attemptActions (some e) ++
          Action.incrRetry :: Action.wait (2 ^ a * 1000) ::
            executeMarketOrder env maxRetries (a + 1) ∧
      (executeMarketOrder env maxRetries (a + 1)).head? =
        some (Action.persist OrderStatus.routing none)) ∧
    (¬ a < maxRetries →
      executeMarketOrder env maxRetries a =
        attemptActions (some e) ++
          [Action.persist OrderStatus.failed (some e.message),
           Action.emit OrderStatus.failed (some e.message)]) :=
  ⟨fun ham => ⟨exec_retry_case env maxRetries a e h ham,
     exec_head env maxRetries (a + 1)⟩,
   fun hnm => exec_failed_case env maxRetries a e h hnm⟩

/-- Witness for C3 at the default `maxRetries = 3` with a concrete
submission-failure environment. -/
theorem C3_retry_policy_witness :
    executeMarketOrder envSubmitFail 3 0 =
      attemptActions (some { stage := Stage.submit
                             message := "Network error: Transaction failed to submit" }) ++
        Action.incrRetry :: Action.wait (2 ^ 0 * 1000) ::
          executeMarketOrder envSubmitFail 3 1 ∧
    executeMarketOrder envSubmitFail 3 3 =
      attemptActions (some { stage := Stage.submit
                             message := "Network error: Transaction failed to submit" }) ++
        [Action.persist OrderStatus.failed
            (some "Network error: Transaction failed to submit"),
         Action.emit OrderStatus.failed
            (some "Network error: Transaction failed to submit")] :=
  ⟨((C3_retry_policy envSubmitFail 3 0 _ rfl).1 (by decide)).1,
   (C3_retry_policy envSubmitFail 3 3 _ rfl).2 (by decide)⟩

/-- **C4.** The pipeline entry point is a total function of the order and the
failure environment — no error from any stage escapes it — and every trace
ends by persisting a terminal status and then publishing the matching
terminal event: either `CONFIRMED`, or `FAILED` carrying the failure
message once retries are exhausted. -/
theorem C4_no_escaping_exception (env : ℕ → Option StageError)
    (maxRetries a : ℕ) :
    ([Action.persist OrderStatus.confirmed none,
      Action.emit OrderStatus.confirmed none] <:+
        executeMarketOrder env maxRetries a) ∨
    ∃ msg : String,
      [Action.persist OrderStatus.failed (some msg),
       Action.emit OrderStatus.failed (some msg)] <:+
        executeMarketOrder env maxRetries a :=
  exec_terminal_suffix_aux (maxRetries - a) env maxRetries a (by omega)

/-- **C8.** Every `persist` in a pipeline trace is immediately followed by
the `emit` of the same status (persist strictly before publish, both before
the next stage), and consequently the published status sequence equals the
persisted one. -/
theorem C8_persist_then_publish (env : ℕ → Option StageError)
    (maxRetries a : ℕ) :
    persistThenEmit (executeMarketOrder env maxRetries a) = true ∧
    emitted (executeMarketOrder env maxRetries a) =
      persisted (executeMarketOrder env maxRetries a) :=
  ⟨exec_pte_aux (maxRetries - a) env maxRetries a (by omega),
   exec_emitted_aux (maxRetries - a) env maxRetries a (by omega)⟩

/-! ## Claim theorems: the Quote Router -/

/-- **C2 (counterexample).** On a tie in `outputAmount`, `selectBestDex`
returns the second-listed (Meteora) quote, not the first-listed (Raydium)
one as claimed. -/
theorem C2_counterexample :
    selectBestDex
        { dex := DexType.raydium, price := 100, outputAmount := 1000,
          priceImpact := 0, timestamp := 0 }
        { dex := DexType.meteora, price := 98, outputAmount := 1000,
          priceImpact := 0, timestamp := 0 } =
      { dex := DexType.meteora, price := 98, outputAmount := 1000,
        priceImpact := 0, timestamp := 0 } ∧
    ({ dex := DexType.meteora, price := 98, outputAmount := 1000,
       priceImpact := 0, timestamp := 0 } : DexQuote) ≠
      { dex := DexType.raydium, price := 100, outputAmount := 1000,
        priceImpact := 0, timestamp := 0 } := by
  constructor
  · rfl
  · decide

/-- **C2 (amended).** `selectBestDex` returns the quote with the strictly
greater expected output quantity; when the two output quantities are equal it
returns the second-listed venue's quote (Meteora).  The selection depends only
on the output quantities (they fully determine which argument is returned,
and the selected quote's output is the max of the two), it is deterministic
(a pure function), and for outputs 1000 vs 980 the 1000-output quote is
selected regardless of listing order. -/
theorem C2_selectBest (q1 q2 : DexQuote) :
    (q1.outputAmount > q2.outputAmount → selectBestDex q1 q2 = q1) ∧
    (q2.outputAmount ≥ q1.outputAmount → selectBestDex q1 q2 = q2) ∧
    (selectBestDex q1 q2).outputAmount = max q1.outputAmount q2.outputAmount ∧
    (selectBestDex q1 q2 = q1 ∨ selectBestDex q1 q2 = q2) ∧
    selectBestDex
        { dex := DexType.raydium, price := 100, outputAmount := 1000,
          priceImpact := 0, timestamp := 0 }
        { dex := DexType.meteora, price := 98, outputAmount := 980,
          priceImpact := 0, timestamp := 0 } =
      { dex := DexType.raydium, price := 100, outputAmount := 1000,
        priceImpact := 0, timestamp := 0 } ∧
    selectBestDex
        { dex := DexType.raydium, price := 98, outputAmount := 980,
          priceImpact := 0, timestamp := 0 }
        { dex := DexType.meteora, price := 100, outputAmount := 1000,
          priceImpact := 0, timestamp := 0 } =
      { dex := DexType.meteora, price := 100, outputAmount := 1000,
        priceImpact := 0, timestamp := 0 } := by
  refine ⟨?_, ?_, ?_, ?_, by rfl, by rfl⟩
  · intro h
    simp [selectBestDex, h]
  · intro h
    have h2 : ¬ q1.outputAmount > q2.outputAmount := not_lt.mpr h
    simp [selectBestDex, h2]
  · by_cases h : q1.outputAmount > q2.outputAmount
    · rw [selectBestDex, if_pos h, max_eq_left (le_of_lt h)]
    · rw [selectBestDex, if_neg h, max_eq_right (not_lt.mp h)]
  · by_cases h : q1.outputAmount > q2.outputAmount
    · exact Or.inl (by simp [selectBestDex, h])
    · exact Or.inr (by simp [selectBestDex, h])

/-- Witness for C2 (amended): the strict-greater branch at concrete quotes. -/
theorem C2_selectBest_witness :
    selectBestDex
        { dex := DexType.raydium, price := 100, outputAmount := 1000,
          priceImpact := 0, timestamp := 0 }
        { dex := DexType.meteora, price := 98, outputAmount := 980,
          priceImpact := 0, timestamp := 0 } =
      { dex := DexType.raydium, price := 100, outputAmount := 1000,
        priceImpact := 0, timestamp := 0 } :=
  (C2_selectBest
      { dex := DexType.raydium, price := 100, outputAmount := 1000,
        priceImpact := 0, timestamp := 0 }
      { dex := DexType.meteora, price := 98, outputAmount := 980,
        priceImpact := 0, timestamp := 0 }).1 (by norm_num)

/-- **C5.** `validateQuotes` always returns `true` (it never blocks
execution) and warns exactly when the relative price divergence
`|priceA - priceB| / ((priceA + priceB) / 2) * 100` exceeds 10; prices 100
and 120 produce a warning, prices 100 and 102 do not.  (Rational division by
zero yields 0 here, mirroring the no-warning outcome of the `NaN`
comparison in the JavaScript source when both prices are 0.) -/
theorem C5_validate (q1 q2 : DexQuote) :
    (validateQuotes q1 q2).result = true ∧
    ((validateQuotes q1 q2).warned = true ↔
      |q1.price - q2.price| / ((q1.price + q2.price) / 2) * 100 > 10) ∧
    (validateQuotes
        { dex := DexType.raydium, price := 100, outputAmount := 1000,
          priceImpact := 0, timestamp := 0 }
        { dex := DexType.meteora, price := 120, outputAmount := 1200,
          priceImpact := 0, timestamp := 0 }).warned = true ∧
    (validateQuotes
        { dex := DexType.raydium, price := 100, outputAmount := 1000,
          priceImpact := 0, timestamp := 0 }
        { dex := DexType.meteora, price := 102, outputAmount := 1020,
          priceImpact := 0, timestamp := 0 }).warned = false := by
  refine ⟨rfl, ?_, ?_, ?_⟩
  · simp [validateQuotes]
  · have e1 : |(100 : ℚ) - 120| = 20 := by
      rw [show (100 : ℚ) - 120 = -20 by norm_num, abs_neg]
      exact abs_of_pos (by norm_num)
    have hgt : |(100 : ℚ) - 120| / (((100 : ℚ) + 120) / 2) * 100 > 10 := by
      rw [e1]
      norm_num
    simp [validateQuotes, hgt]
  · have e2 : |(100 : ℚ) - 102| = 2 := by
      rw [show (100 : ℚ) - 102 = -2 by norm_num, abs_neg]
      exact abs_of_pos (by norm_num)
    have hle : ¬ (|(100 : ℚ) - 102| / (((100 : ℚ) + 102) / 2) * 100 > 10) := by
      rw [e2]
      norm_num
    simp [validateQuotes, hle]

/-! ## Claim theorems: the Admission Controller -/

/-- **C9.** Admission is idempotent per order identifier: `addOrder` keys
the job by the order's own id, admitting the same order twice equals
admitting it once, and admitting a fresh order enqueues exactly one job
with that id; priorities are market 1, limit 2, sniper 3, unknown kinds 5. -/
theorem C9_admission (q : List Job) (o : Order) :
    addOrder (addOrder q o) o = addOrder q o ∧
    ((∀ j ∈ q, j.jobId ≠ o.id) →
      (addOrder q o).filter (fun j => decide (j.jobId = o.id)) =
        [{ jobId := o.id, priority := getOrderPriority o }]) ∧
    (o.type = "MARKET" → getOrderPriority o = 1) ∧
    (o.type = "LIMIT" → getOrderPriority o = 2) ∧
    (o.type = "SNIPER" → getOrderPriority o = 3) ∧
    (o.type ≠ "MARKET" → o.type ≠ "LIMIT" → o.type ≠ "SNIPER" →
      getOrderPriority o = 5) := by
  refine ⟨?_, ?_, ?_, ?_, ?_, ?_⟩
  · by_cases hq : q.any fun j2 => j2.jobId = o.id
    · simp [addOrder, queueAdd, hq]
    · simp [addOrder, queueAdd, hq]
  · intro h
    have hq : ¬ q.any fun j2 => j2.jobId = o.id := by
      simp only [List.any_eq_true, decide_eq_true_eq, not_exists]
      intro j hj
      exact h j hj.1 hj.2
    have hfil : q.filter (fun j => decide (j.jobId = o.id)) = [] := by
      rw [List.filter_eq_nil_iff]
      intro j hj
      simp [h j hj]
    simp [addOrder, queueAdd, hq, List.filter_append, hfil]
  · intro h
    simp [getOrderPriority, h]
  · intro h
    simp [getOrderPriority, h]
  · intro h
    simp [getOrderPriority, h]
  · intro h1 h2 h3
    simp [getOrderPriority, h1, h2, h3]

/-- Witness for C9 at the concrete market order and the empty queue. -/
theorem C9_admission_witness :
    (addOrder [] marketOrder).filter
        (fun j => decide (j.jobId = marketOrder.id)) =
      [{ jobId := marketOrder.id, priority := getOrderPriority marketOrder }] ∧
    getOrderPriority marketOrder = 1 :=
  ⟨(C9_admission [] marketOrder).2.1 (by simp),
   (C9_admission [] marketOrder).2.2.1 rfl⟩

/-- **C10.** In `updateOrderStatus`, a supplied value `0` for
`raydiumPrice`, `meteoraPrice` or `executionPrice` is silently dropped (the
stored field is unchanged), a non-zero supplied value is stored, and every
stored field other than those named in the update and
`status`/`updatedAt`/`completedAt` is unchanged. -/
theorem C10_truthy_update (order : Order) (status : OrderStatus)
    (data : UpdateData) (now : ℕ) :
    (data.raydiumPrice = some 0 →
      (updateOrderStatus order status data now).raydiumPrice =
        order.raydiumPrice) ∧
    (data.meteoraPrice = some 0 →
      (updateOrderStatus order status data now).meteoraPrice =
        order.meteoraPrice) ∧
    (data.executionPrice = some 0 →
      (updateOrderStatus order status data now).executionPrice =
        order.executionPrice) ∧
    (∀ p : ℚ, p ≠ 0 → data.raydiumPrice = some p →
      (updateOrderStatus order status data now).raydiumPrice = some p) ∧
    (data.raydiumPrice = none →
      (updateOrderStatus order status data now).raydiumPrice =
        order.raydiumPrice) ∧
    (updateOrderStatus order status data now).id = order.id ∧
    (updateOrderStatus order status data now).type = order.type ∧
    (updateOrderStatus order status data now).fromToken = order.fromToken ∧
    (updateOrderStatus order status data now).toToken = order.toToken ∧
    (updateOrderStatus order status data now).amount = order.amount ∧
    (updateOrderStatus order status data now).slippageTolerance =
      order.slippageTolerance ∧
    (updateOrderStatus order status data now).retryCount = order.retryCount ∧
    (updateOrderStatus order status data now).createdAt = order.createdAt ∧
    (data.selectedDex = none →
      (updateOrderStatus order status data now).selectedDex =
        order.selectedDex) ∧
    (data.meteoraPrice = none →
      (updateOrderStatus order status data now).meteoraPrice =
        order.meteoraPrice) ∧
    (data.executionPrice = none →
      (updateOrderStatus order status data now).executionPrice =
        order.executionPrice) ∧
    (data.txHash = none →
      (updateOrderStatus order status data now).txHash = order.txHash) ∧
    (data.failureReason = none →
      (updateOrderStatus order status data now).failureReason =
        order.failureReason) := by
  refine ⟨?_, ?_, ?_, ?_, ?_, rfl, rfl, rfl, rfl, rfl, rfl, rfl, rfl,
    ?_, ?_, ?_, ?_, ?_⟩
  · intro h
    simp [updateOrderStatus, applyUpdate, buildUpdateData, truthyNum, h,
      mergeOpt]
  · intro h
    simp [updateOrderStatus, applyUpdate, buildUpdateData, truthyNum, h,
      mergeOpt]
  · intro h
    simp [updateOrderStatus, applyUpdate, buildUpdateData, truthyNum, h,
      mergeOpt]
  · intro p hp h
    simp [updateOrderStatus, applyUpdate, buildUpdateData, truthyNum, h, hp,
      mergeOpt]
  · intro h
    simp [updateOrderStatus, applyUpdate, buildUpdateData, truthyNum, h,
      mergeOpt]
  · intro h
    simp [updateOrderStatus, applyUpdate, buildUpdateData, truthyStr, h,
      mergeOpt]
  · intro h
    simp [updateOrderStatus, applyUpdate, buildUpdateData, truthyNum, h,
      mergeOpt]
  · intro h
    simp [updateOrderStatus, applyUpdate, buildUpdateData, truthyNum, h,
      mergeOpt]
  · intro h
    simp [updateOrderStatus, applyUpdate, buildUpdateData, truthyStr, h,
      mergeOpt]
  · intro h
    simp [updateOrderStatus, applyUpdate, buildUpdateData, truthyStr, h,
      mergeOpt]

theorem broadcast_none (m : ConnMap) (update : OrderStatusUpdate)
    (hl : lookupConns m update.orderId = none) :
    broadcastStatusUpdate m update =
      { connMap := m, delivered := [], scheduledClose := none } := by
  unfold broadcastStatusUpdate
  rw [hl]

theorem broadcast_nil (m : ConnMap) (update : OrderStatusUpdate)
    (hl : lookupConns m update.orderId = some []) :
    broadcastStatusUpdate m update =
      { connMap := m, delivered := [], scheduledClose := none } := by
  unfold broadcastStatusUpdate
  rw [hl]
  simp

theorem broadcast_some (m : ConnMap) (update : OrderStatusUpdate)
    (conns : List Socket)
    (hl : lookupConns m update.orderId = some conns) (he : ¬ conns.isEmpty) :
    broadcastStatusUpdate m update =
      { connMap := conns.foldl (remStep update.orderId) m
        delivered := (conns.filter deliveryOk).map Socket.sid
        scheduledClose :=
          if update.status = OrderStatus.confirmed ∨
              update.status = OrderStatus.failed
          then some (update.orderId, 5000) else none } := by
  unfold broadcastStatusUpdate
  rw [hl]
  dsimp only
  rw [if_neg he, foldl_broadcastStep]
  simp

theorem close_lookup_none (m : ConnMap) (oid : String)
    (h : lookupConns m oid = none) :
    closeOrderConnections m oid = (m, []) := by
  unfold closeOrderConnections
  rw [h]

theorem close_lookup_some (m : ConnMap) (oid : String) (conns : List Socket)
    (h : lookupConns m oid = some conns) :
    closeOrderConnections m oid = (delConns m oid, conns) := by
  unfold closeOrderConnections
  rw [h]

theorem getOrderConnections_none (m : ConnMap) (oid : String)
    (h : lookupConns m oid = none) : getOrderConnections m oid = 0 := by
  unfold getOrderConnections
  rw [h]

/-! ## Claim theorems: the Status Broadcaster -/

/-- **C6.** `broadcastStatusUpdate` is a total function (it never raises).
If the subscriber set for the event's order is absent or empty, it is a
silent no-op.  Otherwise delivery is attempted to every subscriber: the
message is sent to exactly the open, non-throwing subscribers, a subscriber
whose delivery attempt throws is removed from the set, and one failing
subscriber neither prevents delivery to the rest nor raises.  Subscribing
two connections to the same order and publishing one event delivers it to
both. -/
theorem C6_publish_isolation (m : ConnMap) (update : OrderStatusUpdate) :
    (lookupConns m update.orderId = none →
      broadcastStatusUpdate m update =
        { connMap := m, delivered := [], scheduledClose := none }) ∧
    (lookupConns m update.orderId = some [] →
      broadcastStatusUpdate m update =
        { connMap := m, delivered := [], scheduledClose := none }) ∧
    (∀ conns, lookupConns m update.orderId = some conns →
      (broadcastStatusUpdate m update).delivered =
        (conns.filter deliveryOk).map Socket.sid) ∧
    (∀ conns s, lookupConns m update.orderId = some conns → conns.Nodup →
      s ∈ conns → deliveryThrows s = true →
      ¬ memConn (broadcastStatusUpdate m update).connMap update.orderId s) ∧
    (broadcastStatusUpdate twoSubscribers routingUpdate).delivered =
      [sock1.sid, sock2.sid] := by
  refine ⟨?_, ?_, ?_, ?_, by decide⟩
  · intro h
    exact broadcast_none m update h
  · intro h
    exact broadcast_nil m update h
  · intro conns hl
    by_cases he : conns.isEmpty
    · have hc : conns = [] := List.isEmpty_iff.mp he
      subst hc
      rw [broadcast_nil m update hl]
      rfl
    · rw [broadcast_some m update conns hl he]
  · intro conns s hl hnd hs hthrows
    have he : ¬ conns.isEmpty := by
      cases conns with
      | nil => cases hs
      | cons a l => simp
    rw [broadcast_some m update conns hl he]
    refine fold_removes update.orderId s conns m ?_ hs hthrows
    intro c2 hc2
    rw [hl] at hc2
    injection hc2 with h2
    subst h2
    exact hnd

/-- Witness for C6: with one healthy and one throwing subscriber, the event
is delivered to the healthy one and the throwing one is removed from the
order's subscriber set. -/
theorem C6_publish_isolation_witness :
    (broadcastStatusUpdate oneBadSubscriber routingUpdate).delivered =
      ([sock1, sockBad].filter deliveryOk).map Socket.sid ∧
    ¬ memConn (broadcastStatusUpdate oneBadSubscriber routingUpdate).connMap
        routingUpdate.orderId sockBad :=
  ⟨(C6_publish_isolation oneBadSubscriber routingUpdate).2.2.1
      [sock1, sockBad] (by decide),
   (C6_publish_isolation oneBadSubscriber routingUpdate).2.2.2.1
      [sock1, sockBad] sockBad (by decide) (by decide) (by decide) (by decide)⟩

/-- **C7.** For every published event whose status is terminal (`CONFIRMED`
or `FAILED`) and whose order has a non-empty subscriber set, forced closure
is scheduled after the fixed 5000 ms delay; running `closeOrderConnections`
closes exactly the order's remaining subscribers, discards the subscriber
set, and leaves the per-order subscription count at 0. -/
theorem C7_terminal_teardown (m : ConnMap) (update : OrderStatusUpdate)
    (conns : List Socket)
    (hl : lookupConns m update.orderId = some conns)
    (hne : conns ≠ [])
    (hterm : update.status = OrderStatus.confirmed ∨
      update.status = OrderStatus.failed) :
    (broadcastStatusUpdate m update).scheduledClose =
      some (update.orderId, 5000) ∧
    ∀ m2 : ConnMap,
      getOrderConnections (closeOrderConnections m2 update.orderId).1
          update.orderId = 0 ∧
      ∀ conns2, lookupConns m2 update.orderId = some conns2 →
        (closeOrderConnections m2 update.orderId).2 = conns2 ∧
        lookupConns (closeOrderConnections m2 update.orderId).1
          update.orderId = none := by
  constructor
  · have he : ¬ conns.isEmpty := by
      cases conns with
      | nil => exact absurd rfl hne
      | cons a l => simp
    rw [broadcast_some m update conns hl he]
    simp [hterm]
  · intro m2
    cases hl2 : lookupConns m2 update.orderId with
    | none =>
      rw [close_lookup_none m2 update.orderId hl2]
      refine ⟨getOrderConnections_none m2 update.orderId hl2, ?_⟩
      intro conns2 hc2
      exact absurd hc2 (by simp)
    | some c =>
      rw [close_lookup_some m2 update.orderId c hl2]
      refine ⟨getOrderConnections_none (delConns m2 update.orderId)
        update.orderId (lookup_delConns_self m2 update.orderId), ?_⟩
      intro conns2 hc2
      injection hc2 with h2
      subst h2
      exact ⟨rfl, lookup_delConns_self m2 update.orderId⟩

/-- Witness for C7: a terminal event on the two-subscriber registry
schedules closure at 5000 ms, and the closure leaves 0 subscriptions. -/
theorem C7_terminal_teardown_witness :
    (broadcastStatusUpdate twoSubscribers confirmedUpdate).scheduledClose =
      some (confirmedUpdate.orderId, 5000) ∧
    getOrderConnections
        (closeOrderConnections
          (broadcastStatusUpdate twoSubscribers confirmedUpdate).connMap
          confirmedUpdate.orderId).1 confirmedUpdate.orderId = 0 :=
  ⟨(C7_terminal_teardown twoSubscribers confirmedUpdate [sock1, sock2]
      (by decide) (by decide) (Or.inl rfl)).1,
   ((C7_terminal_teardown twoSubscribers confirmedUpdate [sock1, sock2]
      (by decide) (by decide) (Or.inl rfl)).2
      (broadcastStatusUpdate twoSubscribers confirmedUpdate).connMap).1⟩

/-- Witness for C10: updating `marketOrder` with `executionPrice = 0` leaves
the stored `executionPrice` unchanged, and untouched fields survive. -/
theorem C10_truthy_update_witness :
    (updateOrderStatus marketOrder OrderStatus.confirmed
        { executionPrice := some 0 } 7).executionPrice =
      marketOrder.executionPrice ∧
    (updateOrderStatus marketOrder OrderStatus.confirmed
        { executionPrice := some 0 } 7).amount = marketOrder.amount :=
  ⟨(C10_truthy_update marketOrder OrderStatus.confirmed
      { executionPrice := some 0 } 7).2.2.1 rfl,
   (C10_truthy_update marketOrder OrderStatus.confirmed
      { executionPrice := some 0 } 7).2.2.2.2.2.2.2.2.2.1⟩

end OrderEngine
